import Mathlib

/-!
Environmental controller (`final.c`): state machine, interrupt override,
actuators and logger.

A shallow embedding of the control core of `src/final.c`:

* the four-valued `STATE` enumeration and the constant tables `ledMap`, `stateNames`;
* the three sensor-driven assignments to `curState` in `loop()` (`evaluate`);
* the pin-change interrupt handler `ISR(PCINT0_vect)` (`ISR`);
* one whole iteration of `loop()` over an explicit machine state (`loop`);
* the UART output routines `U0putchar`, `U0putstr`, `U0putint`, `log_event`,
  whose effect is the list of bytes written to the transmit register;
* the transition block of `loop()` with the interrupt handler running once
  before its load of `curState`, between its load and its store, or after its
  store (`transitionPreempted`).

Machine integers are natural numbers.  `temp` is a `byte`, `waterLevel` an
`unsigned int` holding a 10-bit ADC value, registers are 8-bit; none of the
comparisons or divisions in the modelled code can overflow, and the two
places where a value is narrowed (`adc_read`, the store into `PORTB`) carry
their mask explicitly.

The display (`LiquidCrystal`), stepper (`Stepper`), clock (`RTC_DS3231`) and
temperature sensor (`SimpleDHT11`) drivers are libraries outside the source
file.  Values they return are inputs of an iteration (`LoopInput`); the text
sent to the display, and whatever the drivers do to their own pins, are not
part of the machine state: `PORTB` and `PORTC` change only through the
register statements written in the source file.
-/

namespace Final

/-! ## Constants -/

/-- Macro `FAN_BIT`, defined as `0x10`. -/
def FAN_BIT : Nat := 0x10

/-- Macro `GLED_BIT`, defined as `0x80`. -/
def GLED_BIT : Nat := 0x80
/-- Macro `YLED_BIT`, defined as `0x20`. -/
def YLED_BIT : Nat := 0x20
/-- Macro `RLED_BIT`, defined as `0x08`. -/
def RLED_BIT : Nat := 0x08
/-- Macro `BLED_BIT`, defined as `0x02`. -/
def BLED_BIT : Nat := 0x02

/-- Macro `BTN_START`, defined as `0x08`. -/
def BTN_START : Nat := 0x08
/-- Macro `BTN_RESET`, defined as `0x04`. -/
def BTN_RESET : Nat := 0x04
/-- Macro `BTN_CTRL`, defined as `0x02`. -/
def BTN_CTRL : Nat := 0x02

/-- Constant `tempLimit` (`const unsigned int tempLimit = 42`). -/
def tempLimit : Nat := 42
/-- Constant `waterLimit` (`const unsigned int waterLimit = 400`). -/
def waterLimit : Nat := 400

/-! ## State machine data -/

/-- The enumeration `enum STATE {DISABLED, IDLE, ERROR, RUNNING};`. -/
inductive STATE where
  | DISABLED
  | IDLE
  | ERROR
  | RUNNING
  deriving DecidableEq, Repr

open STATE

/-- The table `unsigned char ledMap[4] = {YLED_BIT, GLED_BIT, RLED_BIT, BLED_BIT};`
indexed by the enumeration value. -/
def ledMap : STATE → Nat
  | DISABLED => YLED_BIT
  | IDLE => GLED_BIT
  | ERROR => RLED_BIT
  | RUNNING => BLED_BIT

/-- Bytes of a C string literal (without the terminating NUL). -/
def cstr (s : String) : List Nat := s.toList.map Char.toNat

/-- The table `char *stateNames[4] = {"DISABLED", "IDLE", "ERROR", "RUNNING"};`. -/
def stateNames : STATE → List Nat
  | DISABLED => cstr "DISABLED"
  | IDLE => cstr "IDLE"
  | ERROR => cstr "ERROR"
  | RUNNING => cstr "RUNNING"

/-! ## Sensor-driven transition (`loop()`, the block under `// State Machine`) -/

/-- First assignment:
`curState = (curState == IDLE && temp >= tempLimit) ? RUNNING : curState;` -/
def rule1 (temp : Nat) (curState : STATE) : STATE :=
  if curState = IDLE ∧ temp ≥ tempLimit then RUNNING else curState

/-- Second assignment:
`curState = (curState == RUNNING && temp < tempLimit) ? IDLE : curState;` -/
def rule2 (temp : Nat) (curState : STATE) : STATE :=
  if curState = RUNNING ∧ temp < tempLimit then IDLE else curState

/-- Third assignment:
`curState = (curState != DISABLED && waterLevel < waterLimit) ? ERROR : curState;` -/
def rule3 (waterLevel : Nat) (curState : STATE) : STATE :=
  if curState ≠ DISABLED ∧ waterLevel < waterLimit then ERROR else curState

/-- The three assignments to `curState` executed in sequence, as a function of
the state on entry and the sensor values `temp`, `waterLevel`. -/
def evaluate (temp waterLevel : Nat) (curState : STATE) : STATE :=
  let curState := rule1 temp curState
  let curState := rule2 temp curState
  let curState := rule3 waterLevel curState
  curState

/-! ## Interrupt handler -/

/-- The handler `ISR(PCINT0_vect)`.  It reads the volatile input register `PINB`
once in each of its two tests; `pinb1` is the value of the first read and
`pinb2` the value of the second (made only when the first test fails). -/
def ISR (pinb1 pinb2 : Nat) (curState : STATE) : STATE :=
  if pinb1 &&& BTN_RESET ≠ 0 then
    (if curState = ERROR then IDLE else curState)
  else if pinb2 &&& BTN_START ≠ 0 then
    (if curState = DISABLED then IDLE else DISABLED)
  else curState

/-! ## Runs of the machine: sensor evaluations interleaved with interrupts -/

/-- One atomic step of the controller seen from `curState`: a sensor-driven
evaluation with the given snapshot, or one invocation of the interrupt
handler with the given register reads. -/
inductive Action where
  | sense (temp waterLevel : Nat)
  | interrupt (pinb1 pinb2 : Nat)
  deriving DecidableEq, Repr

/-- Effect of one action on `curState`. -/
def step : Action → STATE → STATE
  | Action.sense temp waterLevel, s => evaluate temp waterLevel s
  | Action.interrupt pinb1 pinb2, s => ISR pinb1 pinb2 s

/-- Effect of a sequence of actions, first action first. -/
def run : List Action → STATE → STATE
  | [], s => s
  | a :: rest, s => run rest (step a s)

/-- The RESET line reads active in this action (only interrupts read lines). -/
def resetActive : Action → Prop
  | Action.sense _ _ => False
  | Action.interrupt pinb1 _ => pinb1 &&& BTN_RESET ≠ 0

/-- The START line is the one the handler acts on: RESET reads inactive in the
first read and START reads active in the second. -/
def startActive : Action → Prop
  | Action.sense _ _ => False
  | Action.interrupt pinb1 pinb2 => pinb1 &&& BTN_RESET = 0 ∧ pinb2 &&& BTN_START ≠ 0

instance (a : Action) : Decidable (resetActive a) := by
  cases a <;> unfold resetActive <;> infer_instance

instance (a : Action) : Decidable (startActive a) := by
  cases a <;> unfold startActive <;> infer_instance

/-! ## UART output

The effect of the transmit routines is the list of bytes stored into the data
register `UDR0`, in order.  `U0putchar` spins on the transmitter-empty flag of
the status register before each store; that flag is set by the hardware and is
outside the program, so the wait is not part of the model. -/

/-- The routine `U0putchar(unsigned char U0pdata)`: one byte is stored into
`UDR0`.  The parameter is an `unsigned char`, so the argument is reduced
modulo 256. -/
def U0putchar (U0pdata : Nat) : List Nat := [U0pdata % 256]

/-- The routine `U0putstr(unsigned char* my_str)`:
`while (*my_str) U0putchar(*my_str++); U0putchar('\n');`.  The argument is the
sequence of bytes at the pointer; the loop stops at the first zero byte or at
the end of the literal (its terminating NUL). -/
def U0putstr : List Nat → List Nat
  | [] => U0putchar 10
  | c :: rest => if c = 0 then U0putchar 10 else U0putchar c ++ U0putstr rest

/-- The routine `U0putint(unsigned int my_int)`:
`if (my_int >= 10) U0putint(my_int / 10); U0putchar('0' + (my_int % 10));`. -/
def U0putint (my_int : Nat) : List Nat :=
  (if _h : my_int ≥ 10 then U0putint (my_int / 10) else []) ++
    U0putchar ('0'.toNat + my_int % 10)
termination_by my_int
decreasing_by omega

/-- Value returned by `rtc.now()`, reduced to the three accessors the program
uses (`hour()`, `minute()`, `second()`). -/
structure DateTime where
  hour : Nat
  minute : Nat
  second : Nat
  deriving DecidableEq, Repr

/-- The routine `log_event(DateTime now)`.  It reads the globals `prevState` and
`curState`, which are passed explicitly here; the result is the byte sequence
it transmits. -/
def log_event (now : DateTime) (prevState curState : STATE) : List Nat :=
  U0putstr (cstr "\nSTATE: ") ++
  U0putstr (stateNames prevState) ++
  U0putstr (cstr " -> ") ++
  U0putstr (stateNames curState) ++
  U0putstr (cstr "\nTIME: ") ++
  U0putint now.hour ++
  U0putchar ':'.toNat ++
  U0putint now.minute ++
  U0putchar ':'.toNat ++
  U0putint now.second ++
  U0putchar 10

/-! ## Machine state and one iteration of `loop()` -/

/-- The globals and registers the main loop reads or writes, together with the
bytes sent to the UART so far and the number of stepper steps requested. -/
structure Machine where
  curState : STATE
  prevState : STATE
  temp : Nat
  humid : Nat
  waterLevel : Nat
  PORTB : Nat
  PORTC : Nat
  serial : List Nat
  ventSteps : Nat
  deriving DecidableEq, Repr

/-- What the environment supplies during one iteration: the clock reading,
the ADC data register after the conversion, the outcome of the temperature
sensor read (its return code and the values found in `temp` and `humid` after
the call), and the value of `PINB` at the vent-button poll. -/
structure LoopInput where
  now : DateTime
  adcData : Nat
  dhtErr : Int
  dhtTemp : Nat
  dhtHumid : Nat
  pinb : Nat
  deriving DecidableEq, Repr

/-- The routine `adc_read`: `unsigned int val = (*my_ADC_DATA & 0x03FF); return val;`
applied to the content of the data register once the conversion has ended. -/
def adc_read (adcData : Nat) : Nat := adcData &&& 0x03FF

/-- The routine `load_ht()` restricted to the globals of the machine: the driver
call `dht.read(DHT_PIN, &temp, &humid, NULL)` leaves its results in `temp` and
`humid`; the remainder of the routine only formats the display text. -/
def load_ht (inp : LoopInput) (m : Machine) : Machine :=
  { m with temp := inp.dhtTemp, humid := inp.dhtHumid }

/-- The routine `LED_UPDATE()`: `*PORTC_PTR = ledMap[curState];`. -/
def LED_UPDATE (m : Machine) : Machine :=
  { m with PORTC := ledMap m.curState }

/-- The statement `*PORTB_PTR &= ~FAN_BIT;`.  The complement is taken in a
16-bit `int` and the result is stored into an 8-bit register. -/
def fanOff (portb : Nat) : Nat := (portb &&& (0xFFFF ^^^ FAN_BIT)) % 256

/-- The statement `*PORTB_PTR |= FAN_BIT;`. -/
def fanOn (portb : Nat) : Nat := (portb ||| FAN_BIT) % 256

/-- Sensor acquisition at the top of `loop()`:
`waterLevel = adc_read(0); if (now.second() == 0) load_ht();`. -/
def acquire (inp : LoopInput) (m : Machine) : Machine :=
  let m := { m with waterLevel := adc_read inp.adcData }
  if inp.now.second = 0 then load_ht inp m else m

/-- The `if / else if` chain after the state machine in `loop()`, restricted to
its register writes (the other statements print to the display). -/
def fanPolicy (m : Machine) : Machine :=
  if m.curState = DISABLED then { m with PORTB := fanOff m.PORTB }
  else if m.curState = IDLE then { m with PORTB := fanOff m.PORTB }
  else if m.curState = RUNNING then { m with PORTB := fanOn m.PORTB }
  else if m.curState = ERROR then { m with PORTB := fanOff m.PORTB }
  else m

/-- The vent-control block of `loop()`:
`if ((*PINB_PTR & BTN_CTRL) != 0) { U0putstr("\nVENT MOVED"); vent.step(1); }`. -/
def ventControl (inp : LoopInput) (m : Machine) : Machine :=
  if inp.pinb &&& BTN_CTRL ≠ 0 then
    { m with serial := m.serial ++ U0putstr (cstr "\nVENT MOVED"),
             ventSteps := m.ventSteps + 1 }
  else m

/-- One iteration of `loop()`, statement by statement, with no interrupt
during the iteration. -/
def loop (inp : LoopInput) (m : Machine) : Machine :=
  -- DateTime now = rtc.now(); waterLevel = adc_read(0);
  -- if (now.second() == 0) load_ht();
  let m := acquire inp m
  -- lcd.setCursor(0, 1); lcd.print(stateNames[curState]);  (display only)
  -- LED_UPDATE();
  let m := LED_UPDATE m
  -- the three assignments to curState
  let m := { m with curState := rule1 m.temp m.curState }
  let m := { m with curState := rule2 m.temp m.curState }
  let m := { m with curState := rule3 m.waterLevel m.curState }
  -- if (curState == DISABLED) ... else if (curState == ERROR) ...
  let m := fanPolicy m
  -- vent control
  let m := ventControl inp m
  -- if (prevState != curState) log_event(now);
  let m := if m.prevState ≠ m.curState then
      { m with serial := m.serial ++ log_event inp.now m.prevState m.curState }
    else m
  -- prevState = curState;
  { m with prevState := m.curState }

/-! ## Preemption of the transition block by the interrupt handler

The variable `curState` is declared without `volatile`
(`STATE curState = DISABLED, prevState;`) and nothing in `loop()` masks the
pin-change interrupt.  The three assignments are the only writes of
`curState` in `loop()` and no call stands between them, so the block works on
a copy of the variable: the cell is loaded once before the first assignment,
the three assignments are applied to the copy, and the copy is stored once
after the last assignment.  The handler runs to completion at one point of
the block and reads and writes the cell itself. -/

/-- Points of the transition block at which the handler can run: before the
block loads `curState` (any earlier point of the iteration acts the same,
because nothing earlier writes `curState`), between the load and the store,
and after the store (any later point of the iteration acts the same). -/
inductive BlockPoint where
  | beforeLoad
  | betweenLoadAndStore
  | afterStore
  deriving DecidableEq, Repr

/-- Content of the cell `curState` at the end of the transition block of an
iteration in which the handler (reading `pinb1`, `pinb2`) runs once, at point
`p`.  The block loads the cell into `copy`, computes the three assignments on
`copy`, and stores `copy`; a value the handler wrote between the load and the
store is replaced by that store. -/
def transitionPreempted (p : BlockPoint) (pinb1 pinb2 temp waterLevel : Nat)
    (mem : STATE) : STATE :=
  let mem := if p = BlockPoint.beforeLoad then ISR pinb1 pinb2 mem else mem
  -- load of curState
  let copy := mem
  let _mem := if p = BlockPoint.betweenLoadAndStore then ISR pinb1 pinb2 mem else mem
  -- the three assignments, on the copy
  let copy := rule1 temp copy
  let copy := rule2 temp copy
  let copy := rule3 waterLevel copy
  -- store of curState
  let mem := copy
  if p = BlockPoint.afterStore then ISR pinb1 pinb2 mem else mem

/-! ## Decimal notation, as the specification words it -/

/-- Specification of the unsigned decimal notation of `n` as ASCII bytes: the
base-10 digits, most significant first, without leading zeros, and the single
digit 0 for zero.  Stated with the library's `Nat.digits` (least significant
digit first, empty for zero), independently of `U0putint`. -/
def decimal (n : Nat) : List Nat :=
  if n = 0 then ['0'.toNat]
  else (Nat.digits 10 n).reverse.map (fun d => '0'.toNat + d)

/-- Value denoted by a sequence of ASCII digits read most significant first. -/
def decimalValue (bytes : List Nat) : Nat :=
  bytes.foldl (fun acc b => 10 * acc + (b - '0'.toNat)) 0

/-! ## Concrete machines and inputs used in examples -/

/-- A machine idling at 45 degrees with the pull-ups of the three buttons set
in `PORTB` (as `IO_INIT` leaves them) and the green indicator lit. -/
def idleHot : Machine :=
  { curState := IDLE, prevState := IDLE, temp := 45, humid := 30, waterLevel := 500,
    PORTB := 0x0E, PORTC := GLED_BIT, serial := [], ventSteps := 0 }

/-- A machine whose previous-state slot holds `ERROR` and whose current state
was set to `IDLE` by the handler (RESET pressed), at 30 degrees. -/
def afterReset : Machine :=
  { curState := IDLE, prevState := ERROR, temp := 30, humid := 30, waterLevel := 350,
    PORTB := 0x0E, PORTC := RLED_BIT, serial := [], ventSteps := 0 }

/-- An iteration at 12:30:15 with a full tank (ADC value 500) and no button
held; the temperature sensor is not read because the second is not 0. -/
def fullTank : LoopInput :=
  { now := { hour := 12, minute := 30, second := 15 }, adcData := 500,
    dhtErr := 0, dhtTemp := 0, dhtHumid := 0, pinb := 0 }

/-- An iteration at 12:30:15 with a low tank (ADC value 350) and no button
held. -/
def lowTank : LoopInput :=
  { now := { hour := 12, minute := 30, second := 15 }, adcData := 350,
    dhtErr := 0, dhtTemp := 0, dhtHumid := 0, pinb := 0 }

/-! ## Theorems -/

/-- Helper: the sensor-driven transition never leaves `ERROR`. -/
theorem evaluate_fixed_points_aux (temp waterLevel : Nat) :
    evaluate temp waterLevel ERROR = ERROR := by
  simp [evaluate, rule1, rule2, rule3]

/-- C1. Water-level interlock: from every state other than `DISABLED`, for
every temperature and every water level below 400, the three transition
assignments end in `ERROR`; in particular from `IDLE` with a temperature of
at least 42 and from `RUNNING` with any temperature. -/
theorem evaluate_low_water (s : STATE) (temp waterLevel : Nat)
    (hs : s ≠ DISABLED) (hw : waterLevel < 400) :
    evaluate temp waterLevel s = ERROR ∧
    evaluate temp waterLevel RUNNING = ERROR ∧
    (temp ≥ 42 → evaluate temp waterLevel IDLE = ERROR) := by
  have hw' : waterLevel < waterLimit := hw
  refine ⟨?_, ?_, ?_⟩
  · cases s <;> simp [evaluate, rule1, rule2, rule3, hw'] at hs ⊢ <;>
      split_ifs <;> simp [hw']
  · simp only [evaluate, rule1, rule2, rule3]
    split_ifs <;> simp_all
  · intro _
    simp only [evaluate, rule1, rule2, rule3]
    split_ifs <;> simp_all

/-- Witness for C1: `RUNNING` with temperature 50 and water level 350. -/
theorem evaluate_low_water_witness :
    RUNNING ≠ DISABLED ∧ 350 < 400 ∧ evaluate 50 350 RUNNING = ERROR :=
  ⟨by decide, by decide, (evaluate_low_water RUNNING 50 350 (by decide) (by decide)).1⟩

/-- C2. Thermal rule: with a water level of at least 400, `IDLE` goes to
`RUNNING` when the temperature is at least 42 and stays `IDLE` below 42;
`RUNNING` goes to `IDLE` when the temperature is below 42 and stays `RUNNING`
from 42 up. -/
theorem evaluate_thermal (temp waterLevel : Nat) (hw : waterLevel ≥ 400) :
    (temp ≥ 42 → evaluate temp waterLevel IDLE = RUNNING) ∧
    (temp < 42 → evaluate temp waterLevel RUNNING = IDLE) ∧
    (temp < 42 → evaluate temp waterLevel IDLE = IDLE) ∧
    (temp ≥ 42 → evaluate temp waterLevel RUNNING = RUNNING) := by
  have hw' : ¬ waterLevel < waterLimit := Nat.not_lt.mpr hw
  have h42 : tempLimit = 42 := rfl
  refine ⟨?_, ?_, ?_, ?_⟩ <;> intro ht <;>
    simp only [evaluate, rule1, rule2, rule3, h42] <;>
    split_ifs <;> simp_all <;> omega

/-- Witness for C2: water level 500, temperatures 45 and 30. -/
theorem evaluate_thermal_witness :
    500 ≥ 400 ∧ evaluate 45 500 IDLE = RUNNING ∧ evaluate 30 500 RUNNING = IDLE ∧
    evaluate 30 500 IDLE = IDLE ∧ evaluate 45 500 RUNNING = RUNNING :=
  ⟨by decide,
   (evaluate_thermal 45 500 (by decide)).1 (by decide),
   (evaluate_thermal 30 500 (by decide)).2.1 (by decide),
   (evaluate_thermal 30 500 (by decide)).2.2.1 (by decide),
   (evaluate_thermal 45 500 (by decide)).2.2.2 (by decide)⟩

/-- C3. `ERROR` and `DISABLED` are fixed points of the sensor-driven
transition, for every temperature and every water level. -/
theorem evaluate_fixed_points (temp waterLevel : Nat) :
    evaluate temp waterLevel ERROR = ERROR ∧
    evaluate temp waterLevel DISABLED = DISABLED := by
  constructor <;> simp [evaluate, rule1, rule2, rule3]

/-- C4. The interrupt handler computes the override function: when the RESET
bit (0x04) of the first read is set, `ERROR` becomes `IDLE` and every other
state is kept, whatever the START bit; otherwise, when the START bit (0x08)
of the second read is set, `DISABLED` becomes `IDLE` and every other state
becomes `DISABLED`; when neither bit is set the state is unchanged. -/
theorem ISR_override (s : STATE) (pinb1 pinb2 : Nat) :
    (pinb1 &&& 0x04 ≠ 0 → ISR pinb1 pinb2 s = if s = ERROR then IDLE else s) ∧
    (pinb1 &&& 0x04 = 0 → pinb2 &&& 0x08 ≠ 0 →
      ISR pinb1 pinb2 s = if s = DISABLED then IDLE else DISABLED) ∧
    (pinb1 &&& 0x04 = 0 → pinb2 &&& 0x08 = 0 → ISR pinb1 pinb2 s = s) := by
  have hr : BTN_RESET = 0x04 := rfl
  have hs : BTN_START = 0x08 := rfl
  refine ⟨?_, ?_, ?_⟩
  · intro h; simp [ISR, hr, h]
  · intro h1 h2; simp [ISR, hr, hs, h1, h2]
  · intro h1 h2; simp [ISR, hr, hs, h1, h2]

/-- Witness for C4: both lines active in `ERROR` (RESET wins), START alone in
`RUNNING` and in `DISABLED`, no line active in `RUNNING`. -/
theorem ISR_override_witness :
    ISR 0x0C 0x0C ERROR = IDLE ∧ ISR 0x0C 0x0C RUNNING = RUNNING ∧
    ISR 0x08 0x08 RUNNING = DISABLED ∧ ISR 0x08 0x08 DISABLED = IDLE ∧
    ISR 0 0 RUNNING = RUNNING :=
  ⟨(ISR_override ERROR 0x0C 0x0C).1 (by decide),
   (ISR_override RUNNING 0x0C 0x0C).1 (by decide),
   (ISR_override RUNNING 0x08 0x08).2.1 (by decide) (by decide),
   (ISR_override DISABLED 0x08 0x08).2.1 (by decide) (by decide),
   (ISR_override RUNNING 0 0).2.2 (by decide) (by decide)⟩

/-- C5 as stated fails: an interrupt in which only the START line reads
active takes `ERROR` to `DISABLED`, so a step leaves `ERROR` with RESET
inactive, and a run of two such interrupts, in none of which RESET reads
active, takes `ERROR` to `IDLE`. -/
theorem error_cleared_without_reset :
    step (Action.interrupt 0x08 0x08) ERROR = DISABLED ∧
    ¬ resetActive (Action.interrupt 0x08 0x08) ∧
    run [Action.interrupt 0x08 0x08, Action.interrupt 0x08 0x08] ERROR = IDLE ∧
    ¬ (∀ (a : Action), step a ERROR ≠ ERROR → resetActive a) ∧
    ¬ (∀ (acts : List Action), (∀ a ∈ acts, ¬ resetActive a) →
        run acts ERROR = ERROR) := by
  refine ⟨by decide, by decide, by decide, ?_, ?_⟩
  · intro h
    exact absurd (h (Action.interrupt 0x08 0x08) (by decide)) (by decide)
  · intro h
    exact absurd (h [Action.interrupt 0x08 0x08] (by decide)) (by decide)

/-- C5 amended. Every step that starts in `ERROR` and ends elsewhere is an
interrupt in which RESET reads active (and the step ends in `IDLE`) or in
which RESET reads inactive and START reads active (and the step ends in
`DISABLED`); along any run in which neither line ever reads active this way,
a machine in `ERROR` stays in `ERROR`. -/
theorem error_left_only_by_buttons (a : Action) (acts : List Action) :
    (step a ERROR ≠ ERROR →
      (resetActive a ∧ step a ERROR = IDLE) ∨
      (startActive a ∧ step a ERROR = DISABLED)) ∧
    ((∀ b ∈ acts, ¬ resetActive b ∧ ¬ startActive b) → run acts ERROR = ERROR) := by
  constructor
  · cases a with
    | sense temp waterLevel =>
      intro h
      exact absurd (evaluate_fixed_points_aux temp waterLevel) h
    | interrupt pinb1 pinb2 =>
      intro h
      simp only [step, ISR, resetActive, startActive] at h ⊢
      by_cases h1 : pinb1 &&& BTN_RESET = 0
      · by_cases h2 : pinb2 &&& BTN_START = 0
        · simp [h1, h2] at h
        · right; simp [h1, h2]
      · left; simp [h1]
  · intro hq
    induction acts with
    | nil => rfl
    | cons b rest ih =>
      have hb := hq b (List.mem_cons_self b rest)
      have hstep : step b ERROR = ERROR := by
        cases b with
        | sense temp waterLevel => exact evaluate_fixed_points_aux temp waterLevel
        | interrupt pinb1 pinb2 =>
          simp only [resetActive, startActive, not_not, not_and] at hb
          simp [step, ISR, hb.1, hb.2 hb.1]
      simp only [run, hstep]
      exact ih (fun c hc => hq c (List.mem_cons_of_mem b hc))

/-- Witness for C5 amended: a START-only interrupt leaves `ERROR` for
`DISABLED`; a run of sensor evaluations and button-free interrupts stays in
`ERROR`. -/
theorem error_left_only_by_buttons_witness :
    step (Action.interrupt 0x08 0x08) ERROR ≠ ERROR ∧
    ((resetActive (Action.interrupt 0x08 0x08) ∧
        step (Action.interrupt 0x08 0x08) ERROR = IDLE) ∨
      (startActive (Action.interrupt 0x08 0x08) ∧
        step (Action.interrupt 0x08 0x08) ERROR = DISABLED)) ∧
    (∀ b ∈ [Action.sense 20 900, Action.interrupt 0x02 0x02],
      ¬ resetActive b ∧ ¬ startActive b) ∧
    run [Action.sense 20 900, Action.interrupt 0x02 0x02] ERROR = ERROR :=
  ⟨by decide,
   (error_left_only_by_buttons (Action.interrupt 0x08 0x08) []).1 (by decide),
   by decide,
   (error_left_only_by_buttons (Action.sense 0 0)
      [Action.sense 20 900, Action.interrupt 0x02 0x02]).2 (by decide)⟩

/-! ### One iteration of the main loop, field by field -/

/-- Helper: sensor acquisition touches only `waterLevel`, `temp` and `humid`. -/
theorem acquire_frame (inp : LoopInput) (m : Machine) :
    (acquire inp m).curState = m.curState ∧ (acquire inp m).prevState = m.prevState ∧
    (acquire inp m).PORTB = m.PORTB ∧ (acquire inp m).serial = m.serial ∧
    (acquire inp m).waterLevel = adc_read inp.adcData := by
  unfold acquire load_ht
  split_ifs <;> simp

/-- Helper: the fan policy and the vent control leave `curState`, `prevState`
and `PORTC` alone. -/
theorem fanPolicy_frame (m : Machine) :
    (fanPolicy m).curState = m.curState ∧ (fanPolicy m).prevState = m.prevState ∧
    (fanPolicy m).PORTC = m.PORTC ∧ (fanPolicy m).serial = m.serial ∧
    (fanPolicy m).PORTB = if m.curState = RUNNING then fanOn m.PORTB else fanOff m.PORTB := by
  unfold fanPolicy
  cases h : m.curState <;> simp

/-- Helper: the vent control appends its notice when the button bit is set
and leaves the state fields and both ports alone. -/
theorem ventControl_frame (inp : LoopInput) (m : Machine) :
    (ventControl inp m).curState = m.curState ∧
    (ventControl inp m).prevState = m.prevState ∧
    (ventControl inp m).PORTC = m.PORTC ∧ (ventControl inp m).PORTB = m.PORTB ∧
    (ventControl inp m).serial = m.serial ++
      (if inp.pinb &&& BTN_CTRL ≠ 0 then U0putstr (cstr "\nVENT MOVED") else []) := by
  unfold ventControl
  split_ifs <;> simp

/-- Helper: the state after an iteration is the transition applied to the
state on entry and the sensor values acquired in the iteration. -/
theorem loop_curState (inp : LoopInput) (m : Machine) :
    (loop inp m).curState =
      evaluate (acquire inp m).temp (acquire inp m).waterLevel m.curState := by
  obtain ⟨hc, -, -, -, -⟩ := acquire_frame inp m
  simp only [loop, LED_UPDATE, evaluate]
  split_ifs <;>
    simp [(ventControl_frame inp _).1, (fanPolicy_frame _).1, hc]

/-- Helper: the previous-state slot is the current state at the end of an
iteration. -/
theorem loop_prevState (inp : LoopInput) (m : Machine) :
    (loop inp m).prevState = (loop inp m).curState := by
  simp only [loop]

/-- Helper: the fan register after an iteration. -/
theorem loop_PORTB (inp : LoopInput) (m : Machine) :
    (loop inp m).PORTB =
      if (loop inp m).curState = RUNNING then fanOn m.PORTB else fanOff m.PORTB := by
  rw [loop_curState]
  obtain ⟨hc, -, hb, -, -⟩ := acquire_frame inp m
  simp only [loop, LED_UPDATE, evaluate]
  split_ifs <;>
    simp_all [(ventControl_frame inp _).2.2.2.1, (fanPolicy_frame _).2.2.2.2]

/-- Helper: the indicator register after an iteration. -/
theorem loop_PORTC (inp : LoopInput) (m : Machine) :
    (loop inp m).PORTC = ledMap m.curState := by
  obtain ⟨hc, -, -, -, -⟩ := acquire_frame inp m
  simp only [loop, LED_UPDATE]
  split_ifs <;>
    simp [(ventControl_frame inp _).2.2.1, (fanPolicy_frame _).2.2.1, hc]

/-- Helper: the bytes transmitted during an iteration are the vent notice
(when the vent button reads pressed) followed by one log record when the
state after the transition differs from the previous-state slot. -/
theorem loop_serial (inp : LoopInput) (m : Machine) :
    (loop inp m).serial = m.serial ++
      (if inp.pinb &&& BTN_CTRL ≠ 0 then U0putstr (cstr "\nVENT MOVED") else []) ++
      (if m.prevState ≠ (loop inp m).curState then
        log_event inp.now m.prevState (loop inp m).curState else []) := by
  rw [loop_curState]
  obtain ⟨hc, hp, -, hs, -⟩ := acquire_frame inp m
  simp only [loop, LED_UPDATE, evaluate]
  split_ifs <;>
    simp_all [(ventControl_frame inp _).1, (ventControl_frame inp _).2.1,
      (ventControl_frame inp _).2.2.2.2, (fanPolicy_frame _).1, (fanPolicy_frame _).2.1,
      (fanPolicy_frame _).2.2.2.1]

/-! ### Bits of the fan register -/

/-- Helper: an 8-bit value has no bit at position 8 or above. -/
theorem testBit_byte_high (p i : Nat) (hp : p < 256) (hi : 8 ≤ i) :
    p.testBit i = false := by
  apply Nat.testBit_eq_false_of_lt
  calc p < 2 ^ 8 := hp
    _ ≤ 2 ^ i := Nat.pow_le_pow_right (by decide) hi

/-- Helper: `fanOff` clears bit 4 and keeps every other bit of a byte. -/
theorem fanOff_testBit (p i : Nat) (hp : p < 256) :
    (fanOff p).testBit i = (decide (i ≠ 4) && p.testBit i) := by
  have h256 : (256 : Nat) = 2 ^ 8 := by norm_num
  have hc : (0xFFFF ^^^ FAN_BIT : Nat) = 65519 := by decide
  unfold fanOff
  rw [hc, h256, Nat.testBit_mod_two_pow, Nat.testBit_and]
  by_cases hi : i < 8
  · interval_cases i <;> simp [Nat.testBit, Nat.shiftRight_eq_div_pow]
  · rw [testBit_byte_high p i hp (by omega)]; simp

/-- Helper: `fanOn` sets bit 4 and keeps every other bit of a byte. -/
theorem fanOn_testBit (p i : Nat) (hp : p < 256) :
    (fanOn p).testBit i = (decide (i = 4) || p.testBit i) := by
  have h256 : (256 : Nat) = 2 ^ 8 := by norm_num
  have hc : FAN_BIT = 2 ^ 4 := by decide
  unfold fanOn
  rw [hc, h256, Nat.testBit_mod_two_pow, Nat.testBit_or, Nat.testBit_two_pow]
  by_cases hi : i < 8
  · by_cases h4 : i = 4
    · subst h4; simp
    · have : ¬ (4 = i) := fun h => h4 h.symm
      simp [hi, h4, this]
  · have h4 : i ≠ 4 := by omega
    have : ¬ (4 = i) := fun h => h4 h.symm
    rw [testBit_byte_high p i hp (by omega)]; simp [h4, this]

/-- Helper: masking with `FAN_BIT` tests bit 4. -/
theorem and_FAN_BIT_ne_zero_iff (q : Nat) : q &&& FAN_BIT ≠ 0 ↔ q.testBit 4 = true := by
  have hc : FAN_BIT = 2 ^ 4 := by decide
  rw [hc, Nat.and_two_pow]
  cases q.testBit 4 <;> simp

/-- C6. Fan policy: after one iteration of the main loop (no interrupt in
between), for every starting machine whose `PORTB` holds a byte and every
input, the state is the transition applied to the state on entry, the fan
bit 0x10 of `PORTB` is set exactly when that state is `RUNNING`, and every
other bit of `PORTB` is as it was before the iteration. -/
theorem loop_fan_policy (inp : LoopInput) (m : Machine) (hB : m.PORTB < 256) :
    (loop inp m).curState =
      evaluate (acquire inp m).temp (acquire inp m).waterLevel m.curState ∧
    ((loop inp m).PORTB &&& FAN_BIT ≠ 0 ↔ (loop inp m).curState = RUNNING) ∧
    (∀ i : Nat, i ≠ 4 → (loop inp m).PORTB.testBit i = m.PORTB.testBit i) := by
  refine ⟨loop_curState inp m, ?_, ?_⟩
  · rw [and_FAN_BIT_ne_zero_iff, loop_PORTB]
    split_ifs with h
    · simp [fanOn_testBit _ _ hB, h]
    · simp [fanOff_testBit _ _ hB, h]
  · intro i hi
    rw [loop_PORTB]
    split_ifs with h
    · simp [fanOn_testBit _ _ hB, hi]
    · simp [fanOff_testBit _ _ hB, hi]

/-- Witness for C6: the idling machine at 45 degrees with a full tank turns
the fan on and keeps the three pull-up bits. -/
theorem loop_fan_policy_witness :
    idleHot.PORTB < 256 ∧
    (loop fullTank idleHot).curState =
      evaluate (acquire fullTank idleHot).temp (acquire fullTank idleHot).waterLevel
        idleHot.curState ∧
    ((loop fullTank idleHot).PORTB &&& FAN_BIT ≠ 0 ↔
      (loop fullTank idleHot).curState = RUNNING) ∧
    (∀ i : Nat, i ≠ 4 →
      (loop fullTank idleHot).PORTB.testBit i = idleHot.PORTB.testBit i) :=
  ⟨by decide, loop_fan_policy fullTank idleHot (by decide)⟩

/-- C7 as stated fails: starting in `IDLE` at 45 degrees with a full tank,
the iteration ends in `RUNNING` while `PORTC` holds the pattern of `IDLE`
(0x80), which differs from the pattern of `RUNNING` (0x02). -/
theorem indicator_shows_entry_state :
    (loop fullTank idleHot).curState = RUNNING ∧
    (loop fullTank idleHot).PORTC = 0x80 ∧
    ledMap (loop fullTank idleHot).curState = 0x02 ∧
    (loop fullTank idleHot).PORTC ≠ ledMap (loop fullTank idleHot).curState := by
  have hc : (loop fullTank idleHot).curState = RUNNING := by
    rw [loop_curState]; decide
  have hp : (loop fullTank idleHot).PORTC = 0x80 := by
    rw [loop_PORTC]; decide
  rw [hc, hp]
  decide

/-- C7 amended. At the end of an iteration of the main loop (no interrupt in
between) `PORTC` holds the pattern of the state the iteration started in; it
is the pattern of the state after the transition exactly when the transition
left the state unchanged, and the pattern of the state after the transition
is the one the following iteration writes. -/
theorem loop_indicator (inp next : LoopInput) (m : Machine) :
    (loop inp m).PORTC = ledMap m.curState ∧
    ((loop inp m).PORTC = ledMap (loop inp m).curState ↔
      (loop inp m).curState = m.curState) ∧
    (loop next (loop inp m)).PORTC = ledMap (loop inp m).curState := by
  refine ⟨loop_PORTC inp m, ?_, loop_PORTC next (loop inp m)⟩
  rw [loop_PORTC]
  generalize (loop inp m).curState = s'
  cases s' <;> cases m.curState <;> decide

/-- C8 as stated fails: with `ERROR` in the previous-state slot and `IDLE` as
current state, an iteration that reads a water level of 350 returns to
`ERROR` and transmits nothing, so no transition from `ERROR` to `IDLE` is
logged. -/
theorem reset_not_logged_when_water_low :
    afterReset.prevState = ERROR ∧ afterReset.curState = IDLE ∧
    (loop lowTank afterReset).curState = ERROR ∧
    (loop lowTank afterReset).serial = [] ∧
    (loop lowTank afterReset).serial ≠
      afterReset.serial ++ log_event lowTank.now ERROR IDLE := by
  have hc : (loop lowTank afterReset).curState = ERROR := by
    rw [loop_curState]; decide
  have hs : (loop lowTank afterReset).serial = [] := by
    rw [loop_serial, hc]; decide
  refine ⟨rfl, rfl, hc, hs, ?_⟩
  rw [hs]
  simp [log_event, U0putstr, U0putchar, cstr, afterReset]

/-- C8 amended. When the previous-state slot holds `ERROR` and the current
state is `IDLE`, the next iteration leaves the previous-state slot equal to
the current state for every snapshot; it transmits (after the vent notice, if
the vent button is held) exactly one log record, naming `ERROR` and `IDLE`,
when the snapshot has a temperature below 42 and a water level of at least
400; it transmits one record naming `ERROR` and `RUNNING` when the
temperature is at least 42 and the water level at least 400; and it
transmits no record when the water level is below 400. -/
theorem loop_logs_after_reset (inp : LoopInput) (m : Machine)
    (hp : m.prevState = ERROR) (hc : m.curState = IDLE) :
    (loop inp m).prevState = (loop inp m).curState ∧
    ((acquire inp m).temp < 42 → (acquire inp m).waterLevel ≥ 400 →
      (loop inp m).curState = IDLE ∧
      (loop inp m).serial = m.serial ++
        (if inp.pinb &&& BTN_CTRL ≠ 0 then U0putstr (cstr "\nVENT MOVED") else []) ++
        log_event inp.now ERROR IDLE) ∧
    ((acquire inp m).temp ≥ 42 → (acquire inp m).waterLevel ≥ 400 →
      (loop inp m).curState = RUNNING ∧
      (loop inp m).serial = m.serial ++
        (if inp.pinb &&& BTN_CTRL ≠ 0 then U0putstr (cstr "\nVENT MOVED") else []) ++
        log_event inp.now ERROR RUNNING) ∧
    ((acquire inp m).waterLevel < 400 →
      (loop inp m).curState = ERROR ∧
      (loop inp m).serial = m.serial ++
        (if inp.pinb &&& BTN_CTRL ≠ 0 then U0putstr (cstr "\nVENT MOVED") else [])) := by
  refine ⟨loop_prevState inp m, ?_, ?_, ?_⟩
  · intro ht hw
    have hs : (loop inp m).curState = IDLE := by
      rw [loop_curState, hc]; exact (evaluate_thermal _ _ hw).2.2.1 ht
    refine ⟨hs, ?_⟩
    rw [loop_serial, hs, hp]; simp
  · intro ht hw
    have hs : (loop inp m).curState = RUNNING := by
      rw [loop_curState, hc]; exact (evaluate_thermal _ _ hw).1 ht
    refine ⟨hs, ?_⟩
    rw [loop_serial, hs, hp]; simp
  · intro hw
    have hs : (loop inp m).curState = ERROR := by
      rw [loop_curState, hc]
      exact (evaluate_low_water IDLE _ _ (by decide) hw).1
    refine ⟨hs, ?_⟩
    rw [loop_serial, hs, hp]; simp

/-- Witness for C8 amended: after a RESET, an iteration at 30 degrees with a
full tank logs the transition from `ERROR` to `IDLE`. -/
theorem loop_logs_after_reset_witness :
    afterReset.prevState = ERROR ∧ afterReset.curState = IDLE ∧
    (acquire fullTank afterReset).temp < 42 ∧
    (acquire fullTank afterReset).waterLevel ≥ 400 ∧
    (loop fullTank afterReset).curState = IDLE ∧
    (loop fullTank afterReset).serial = afterReset.serial ++
      (if fullTank.pinb &&& BTN_CTRL ≠ 0 then U0putstr (cstr "\nVENT MOVED") else []) ++
      log_event fullTank.now ERROR IDLE :=
  ⟨rfl, rfl, by decide, by decide,
   (loop_logs_after_reset fullTank afterReset rfl rfl).2.1 (by decide) (by decide)⟩

/-! ### The integer formatter -/

/-- Helper: below 10 the formatter sends the single digit. -/
theorem U0putint_lt_ten (n : Nat) (h : n < 10) : U0putint n = [48 + n] := by
  rw [U0putint]
  have h1 : ¬ n ≥ 10 := by omega
  have h2 : (48 + n % 10) % 256 = 48 + n := by omega
  simp [h1, U0putchar, h2]

/-- Helper: from 10 up the formatter sends the digits of `n / 10` followed by
the last digit. -/
theorem U0putint_ge_ten (n : Nat) (h : n ≥ 10) :
    U0putint n = U0putint (n / 10) ++ [48 + n % 10] := by
  rw [U0putint]
  have h2 : (48 + n % 10) % 256 = 48 + n % 10 := by omega
  simp [h, U0putchar, h2]

/-- Helper: the formatter agrees with the specification on every number. -/
theorem U0putint_eq_decimal (n : Nat) : U0putint n = decimal n := by
  induction n using Nat.strong_induction_on with
  | _ n ih =>
    by_cases h : n < 10
    · rw [U0putint_lt_ten n h]
      by_cases h0 : n = 0
      · subst h0; simp [decimal]
      · simp [decimal, h0, Nat.digits_of_lt 10 n h0 h]
    · have hge : n ≥ 10 := by omega
      have hpos : 0 < n := by omega
      have hdiv : n / 10 ≠ 0 := by omega
      rw [U0putint_ge_ten n hge, ih (n / 10) (by omega)]
      have hd : Nat.digits 10 n = (n % 10) :: Nat.digits 10 (n / 10) :=
        Nat.digits_def' (by decide) hpos
      simp [decimal, hdiv, Nat.ne_of_gt hpos, hd]

/-- Helper: the formatter sends at least one byte. -/
theorem U0putint_ne_nil (n : Nat) : U0putint n ≠ [] := by
  by_cases h : n < 10
  · rw [U0putint_lt_ten n h]; simp
  · rw [U0putint_ge_ten n (by omega)]; simp

/-- Helper: every byte sent by the formatter is an ASCII digit. -/
theorem U0putint_bytes (n : Nat) : ∀ b ∈ U0putint n, 48 ≤ b ∧ b ≤ 57 := by
  induction n using Nat.strong_induction_on with
  | _ n ih =>
    by_cases h : n < 10
    · rw [U0putint_lt_ten n h]
      intro b hb
      simp at hb
      omega
    · rw [U0putint_ge_ten n (by omega)]
      intro b hb
      rcases List.mem_append.mp hb with hb | hb
      · exact ih (n / 10) (by omega) b hb
      · simp at hb
        omega

/-- Helper: the bytes sent by the formatter denote the number. -/
theorem U0putint_value (n : Nat) : decimalValue (U0putint n) = n := by
  induction n using Nat.strong_induction_on with
  | _ n ih =>
    by_cases h : n < 10
    · rw [U0putint_lt_ten n h]
      simp [decimalValue]
    · rw [U0putint_ge_ten n (by omega)]
      have := ih (n / 10) (by omega)
      unfold decimalValue at this ⊢
      rw [List.foldl_append, this]
      simp
      omega

/-- Helper: the first byte sent for a positive number is not the digit 0. -/
theorem U0putint_head (n : Nat) (hn : 0 < n) : (U0putint n).head? ≠ some 48 := by
  induction n using Nat.strong_induction_on with
  | _ n ih =>
    by_cases h : n < 10
    · rw [U0putint_lt_ten n h]
      simp
      omega
    · rw [U0putint_ge_ten n (by omega)]
      have hne := U0putint_ne_nil (n / 10)
      have := ih (n / 10) (by omega) (by omega)
      cases hl : U0putint (n / 10) with
      | nil => exact absurd hl hne
      | cons x xs =>
        rw [hl] at this
        simpa using this

/-- Helper: a number below `10 ^ (k + 1)` is sent in at most `k + 1` bytes. -/
theorem U0putint_length (k : Nat) : ∀ n : Nat, n < 10 ^ (k + 1) →
    (U0putint n).length ≤ k + 1 := by
  induction k with
  | zero =>
    intro n hn
    rw [U0putint_lt_ten n (by simpa using hn)]
    simp
  | succ k ih =>
    intro n hn
    by_cases h : n < 10
    · rw [U0putint_lt_ten n h]
      simp
    · rw [U0putint_ge_ten n (by omega)]
      have hdiv : n / 10 < 10 ^ (k + 1) := by
        apply Nat.div_lt_of_lt_mul
        calc n < 10 ^ (k + 1 + 1) := hn
          _ = 10 * 10 ^ (k + 1) := by ring
      have := ih (n / 10) hdiv
      simp
      omega

/-- Check of the formatter on the largest 16-bit value and on a value with
inner zeros. -/
theorem U0putint_examples :
    U0putint 65535 = [54, 53, 53, 51, 53] ∧ U0putint 1005 = [49, 48, 48, 53] ∧
    U0putint 0 = [48] ∧ U0putint 7 = [55] := by
  refine ⟨?_, ?_, ?_, ?_⟩ <;>
    simp [U0putint_ge_ten, U0putint_lt_ten]

/-- Check of the whole record sent for the transition from `ERROR` to `IDLE`
at 12:30:15: every `U0putstr` ends its text with a newline, and the time
follows the `TIME: ` line. -/
theorem log_event_example :
    log_event { hour := 12, minute := 30, second := 15 } ERROR IDLE =
      cstr "\nSTATE: \nERROR\n -> \nIDLE\n\nTIME: \n12:30:15\n" := by
  simp [log_event, U0putint_ge_ten, U0putint_lt_ten]
  decide

/-- C9. Integer formatting of the logger: for every unsigned 16-bit value
`n`, `U0putint n` is defined (the recursion ends) and transmits exactly the
decimal notation of `n`: ASCII digits only, most significant first, denoting
`n`, a single digit 0 for zero and no leading digit 0 otherwise; so the bytes
`log_event` sends after its header lines are the decimal hour, a colon, the
decimal minute, a colon, the decimal second and a newline. -/
theorem U0putint_decimal (n : Nat) (hn : n < 65536) (now : DateTime)
    (prevState curState : STATE) :
    U0putint n = decimal n ∧
    (∀ b ∈ U0putint n, '0'.toNat ≤ b ∧ b ≤ '9'.toNat) ∧
    decimalValue (U0putint n) = n ∧
    (n = 0 → U0putint n = ['0'.toNat]) ∧
    (0 < n → (U0putint n).head? ≠ some '0'.toNat) ∧
    (U0putint n).length ≤ 5 ∧
    log_event now prevState curState =
      (U0putstr (cstr "\nSTATE: ") ++ U0putstr (stateNames prevState) ++
        U0putstr (cstr " -> ") ++ U0putstr (stateNames curState) ++
        U0putstr (cstr "\nTIME: ")) ++
      (decimal now.hour ++ [':'.toNat] ++ decimal now.minute ++ [':'.toNat] ++
        decimal now.second ++ [10]) := by
  refine ⟨U0putint_eq_decimal n, U0putint_bytes n, U0putint_value n, ?_,
    U0putint_head n, ?_, ?_⟩
  · intro h0
    subst h0
    exact U0putint_lt_ten 0 (by decide)
  · exact U0putint_length 4 n (lt_trans hn (by norm_num))
  · simp [log_event, U0putint_eq_decimal, U0putchar]

/-- Witness for C9: the largest 16-bit value, inside the record logged at
12:30:15 for the transition from `ERROR` to `IDLE`. -/
theorem U0putint_decimal_witness :
    65535 < 65536 ∧ U0putint 65535 = decimal 65535 ∧
    decimalValue (U0putint 65535) = 65535 ∧ (U0putint 65535).length ≤ 5 :=
  have h := U0putint_decimal 65535 (by decide) fullTank.now ERROR IDLE
  ⟨by decide, h.1, h.2.2.1, h.2.2.2.2.2.1⟩

/-! ### Preemption of the transition block -/

/-- Helper: a handler that finds no line active does not disturb the block,
wherever it runs: the block then computes `evaluate`. -/
theorem transitionPreempted_no_line (p : BlockPoint) (temp waterLevel : Nat)
    (s : STATE) : transitionPreempted p 0 0 temp waterLevel s = evaluate temp waterLevel s := by
  have hisr : ∀ t : STATE, ISR 0 0 t = t := by
    intro t; simp [ISR]
  cases p <;> simp [transitionPreempted, evaluate, hisr]

/-- C10, the code at the failing inputs.  With `curState = IDLE`, 45 degrees
and a full tank, the block loads `IDLE`; the handler then runs with START
pressed (`PINB = 0x08`) and assigns `DISABLED`; the block stores `RUNNING`
over it.  The cell ends in `RUNNING`, which is neither what an evaluation
that had observed the handler's state gives (`DISABLED`) nor what the handler
gives after the evaluation (`DISABLED`), and the evaluation of the next
iteration starts from `RUNNING` and stays there: the override is never
observed.  In the same way, with `curState = RUNNING`, 50 degrees and a water
level of 350, the handler's `DISABLED` is replaced by `ERROR`, and with
`curState = ERROR`, 30 degrees and a full tank, the `IDLE` assigned by a
RESET (`PINB = 0x04`) is replaced by `ERROR`, although an evaluation of
`IDLE` with that snapshot keeps `IDLE`. -/
theorem override_lost_between_load_and_store :
    ISR 0x08 0x08 IDLE = DISABLED ∧
    transitionPreempted BlockPoint.betweenLoadAndStore 0x08 0x08 45 500 IDLE = RUNNING ∧
    evaluate 45 500 (ISR 0x08 0x08 IDLE) = DISABLED ∧
    ISR 0x08 0x08 (evaluate 45 500 IDLE) = DISABLED ∧
    transitionPreempted BlockPoint.beforeLoad 0x08 0x08 45 500 IDLE = DISABLED ∧
    transitionPreempted BlockPoint.afterStore 0x08 0x08 45 500 IDLE = DISABLED ∧
    evaluate 45 500
      (transitionPreempted BlockPoint.betweenLoadAndStore 0x08 0x08 45 500 IDLE)
      = RUNNING ∧
    ISR 0x08 0x08 RUNNING = DISABLED ∧
    transitionPreempted BlockPoint.betweenLoadAndStore 0x08 0x08 50 350 RUNNING = ERROR ∧
    ISR 0x04 0x04 ERROR = IDLE ∧
    evaluate 30 500 (ISR 0x04 0x04 ERROR) = IDLE ∧
    transitionPreempted BlockPoint.betweenLoadAndStore 0x04 0x04 30 500 ERROR = ERROR := by
  decide

end Final
